import Mathlib

/-!
# Verification of the hybrid node failover operator

A shallow embedding of the failover controller sources
(`node_operator/gcp/cloud_init.py`, `node_operator/gcp/compute.py`,
`node_operator/k8s/client.py`, `node_operator/crd/nodefailover.py`,
`node_operator/handlers/nodefailover_handler.py`,
`node_operator/handlers/node_event_handler.py`,
`node_operator/handlers/reconciliation.py`,
`node_operator/handlers/node_watcher.py`) together with theorems that
settle the specification claims about it.

Conventions of the embedding:
* Python strings are modelled in their ASCII fragment: `str.lower` is
  `Char.toLower` (the basic-latin case map), `str.isalnum` is
  `Char.isAlphanum`, `str.isalpha` is `Char.isAlpha`.  Kubernetes node
  names are ASCII, so the claims live entirely inside this fragment.
* Fallible Python code is modelled with `Except PyExc`; an uncaught
  exception is an `Except.error`.
* A Python attribute access `obj.m()` on a class instance is modelled by
  a lookup of the method name in the literal list of methods the class
  defines; a missing name raises `PyExc.attributeError`.
* Timestamps (`time.time()`, ISO timestamps stored in the record) are
  modelled as epoch seconds (`Nat`); `str(int(time.time()))` is
  `Nat.repr`.
* External observations (node readiness, whether a VM exists, the result
  of a cloud delete, the list returned by a cluster query) are inputs of
  the modelled operations; the cluster writes an operation performs are
  its outputs.
-/

namespace NodeOp

/-- A Python exception, as far as the claims need to distinguish them. -/
inductive PyExc where
  /-- `AttributeError` raised by an attribute lookup of the given name. -/
  | attributeError (attr : String)
  /-- `IndexError` raised by an out-of-range subscript. -/
  | indexError
  /-- `TypeError`, e.g. from `await`-ing the `bool` a synchronous
  function returned. -/
  | typeError (msg : String)
  /-- `Exception(msg)` raised explicitly by the handler code. -/
  | otherError (msg : String)
deriving DecidableEq

instance {ε α : Type} [DecidableEq ε] [DecidableEq α] : DecidableEq (Except ε α) := fun x y =>
  match x, y with
  | .ok a, .ok b =>
    if h : a = b then isTrue (by rw [h]) else isFalse fun he => h (Except.ok.inj he)
  | .error a, .error b =>
    if h : a = b then isTrue (by rw [h]) else isFalse fun he => h (Except.error.inj he)
  | .ok _, .error _ => isFalse fun he => Except.noConfusion he
  | .error _, .ok _ => isFalse fun he => Except.noConfusion he

/-! ## `gcp/cloud_init.py`: VM name generation

Source (`generate_vm_name`):
```python
sanitized = onprem_node_name.lower().replace("_", "-")
sanitized = "".join(c for c in sanitized if c.isalnum() or c == "-")
if not sanitized[0].isalpha():
    sanitized = "node-" + sanitized
timestamp = str(int(time.time()))
vm_name = f"gcp-temp-{sanitized}-{timestamp}"
if len(vm_name) > 63:
    max_prefix_len = 63 - len(timestamp) - 10
    vm_name = f"gcp-temp-{sanitized[:max_prefix_len]}-{timestamp}"
return vm_name
```
-/

/-- Python `s.lower()` followed by `s.replace("_", "-")` followed by
keeping only the characters with `c.isalnum() or c == "-"`, on the ASCII
fragment.  This sanitisation also appears verbatim in
`create_failover_vm` and in `reconstruct_state`. -/
def pySanitize (s : String) : List Char :=
  ((s.toList.map Char.toLower).map fun c => if c = '_' then '-' else c).filter
    fun c => c.isAlphanum || c = '-'

/-- Python slicing `l[:k]`, including the negative-index convention
(`l[:k]` with `k < 0` drops the last `-k` elements, clamped at the empty
list). -/
def pySlice (k : Int) (l : List Char) : List Char :=
  if k < 0 then l.take (l.length - (-k).toNat) else l.take k.toNat

/-- The body of `generate_vm_name` after sanitisation: `sanitized` is the
(nonempty, first-character-adjusted) sanitised node name, `ts` is the
decimal rendering of the timestamp.  Mirrors the f-string construction
and the 63-character truncation of the source. -/
def gvnCore (sanitized ts : List Char) : List Char :=
  let vmName := "gcp-temp-".toList ++ sanitized ++ '-' :: ts
  if 63 < vmName.length then
    "gcp-temp-".toList ++ pySlice (63 - (ts.length : Int) - 10) sanitized ++ '-' :: ts
  else
    vmName

/-- `generate_vm_name(onprem_node_name)` with the call `int(time.time())`
made explicit as the `timestamp` argument.  `sanitized[0]` on an empty
sanitised name raises `IndexError`; otherwise `"node-"` is prepended when
the first character is not a letter. -/
def generate_vm_name (onprem_node_name : String) (timestamp : Nat) : Except PyExc String :=
  match pySanitize onprem_node_name with
  | [] => .error .indexError
  | c :: cs =>
    let sanitized := if c.isAlpha then c :: cs else "node-".toList ++ c :: cs
    .ok (gvnCore sanitized (Nat.repr timestamp).toList).asString

/-- The decimal digit list of a natural number, structured for proofs
(most significant digit first, agreeing with `Nat.toDigits 10`). -/
def decDigits (n : Nat) : List Char :=
  if n < 10 then [Nat.digitChar n]
  else decDigits (n / 10) ++ [Nat.digitChar (n % 10)]
decreasing_by exact Nat.div_lt_self (by omega) (by omega)

/-- Reading a most-significant-first decimal digit list back as a number. -/
def decodeDecimal (l : List Char) : Nat :=
  l.foldl (fun a c => 10 * a + (c.toNat - 48)) 0

/-- The maximal hyphen-free suffix of a character list.  Applied to a
generated VM name it recovers the timestamp rendering, which makes the
names injective in the timestamp. -/
def afterLastHyphen (l : List Char) : List Char :=
  (l.reverse.takeWhile fun c => c != '-').reverse

/-- A character admitted by the GCP VM-name character class `[a-z0-9-]`. -/
def vmNameCharOk (c : Char) : Prop :=
  c.isLower = true ∨ c.isDigit = true ∨ c = '-'

instance : DecidablePred vmNameCharOk := fun c => by
  unfold vmNameCharOk
  infer_instance

/-- The property of matching the regular expression `^[a-z][a-z0-9-]{0,62}$`:
nonempty, first character a lowercase letter, at most 62 further
characters, all from `[a-z0-9-]`. -/
def vmNameRegexOk (s : String) : Prop :=
  ∃ c rest, s.toList = c :: rest ∧ c.isLower = true ∧ rest.length ≤ 62 ∧
    ∀ d ∈ rest, vmNameCharOk d

/-! ## `crd/nodefailover.py`: the NodeFailover record store

The store holds at most one record per node; the claims are all about a
single node, so the store is an `Option NFStatus`.  `lastTransitionTime`
on conditions and the `spec` block (`onpremNodeName`,
`targetNodeLabels`) are not consulted by any claim and are omitted. -/

/-- One entry of `status.conditions`. -/
structure NFCondition where
  type : String
  status : String
  reason : Option String := none
  message : Option String := none
deriving DecidableEq

/-- The `status` block of a NodeFailover resource.  A missing
`vmCreationAttempts` key reads as 0 (`status.get("vmCreationAttempts", 0)`),
so it is a plain `Nat`. -/
structure NFStatus where
  phase : Option String := none
  gcpVmName : Option String := none
  failedAt : Option Nat := none
  recoveryDetectedAt : Option Nat := none
  vmCreationAttempts : Nat := 0
  lastError : Option String := none
  conditions : List NFCondition := []
deriving DecidableEq

/-- The keyword arguments of `NodeFailoverCRD.update_status`; a `none`
field is an omitted argument and leaves the status field unchanged. -/
structure StatusPatch where
  phase : Option String := none
  gcpVmName : Option String := none
  recoveryDetectedAt : Option Nat := none
  vmCreationAttempts : Option Nat := none
  lastError : Option String := none

/-- `if x is not None: status[...] = x`. -/
def patched {α : Type} (new old : Option α) : Option α :=
  match new with
  | some v => some v
  | none => old

/-- `NodeFailoverCRD.update_status` on a present record. -/
def updateStatus (st : NFStatus) (p : StatusPatch) : NFStatus where
  phase := patched p.phase st.phase
  gcpVmName := patched p.gcpVmName st.gcpVmName
  failedAt := st.failedAt
  recoveryDetectedAt := patched p.recoveryDetectedAt st.recoveryDetectedAt
  vmCreationAttempts :=
    match p.vmCreationAttempts with
    | some v => v
    | none => st.vmCreationAttempts
  lastError := patched p.lastError st.lastError
  conditions := st.conditions

/-- `NodeFailoverCRD.update_status`: when the resource is absent it logs
an error and writes nothing. -/
def updateStatusStore (store : Option NFStatus) (p : StatusPatch) : Option NFStatus :=
  match store with
  | none => none
  | some st => some (updateStatus st p)

/-- `NodeFailoverCRD.set_condition` on a present record: drop any
condition of the same type, append the new one. -/
def setCondition (st : NFStatus) (ty status : String)
    (reason message : Option String) : NFStatus :=
  { st with conditions :=
      (st.conditions.filter fun c => c.type != ty) ++
        [{ type := ty, status := status, reason := reason, message := message }] }

/-- `NodeFailoverCRD.set_condition`: absent resource, no write. -/
def setConditionStore (store : Option NFStatus) (ty status : String)
    (reason message : Option String) : Option NFStatus :=
  match store with
  | none => none
  | some st => some (setCondition st ty status reason message)

/-- `NodeFailoverCRD.get_condition`: first condition of the given type. -/
def getCondition (st : NFStatus) (ty : String) : Option NFCondition :=
  st.conditions.find? fun c => c.type == ty

/-- `NodeFailoverCRD.create`: a fresh record in phase Pending with
`failedAt = now`, zero attempts and no conditions. -/
def crdCreate (now : Nat) : NFStatus where
  phase := some "Pending"
  failedAt := some now
  vmCreationAttempts := 0
  conditions := []

/-! ## Method tables of the two gateway classes

A Python call `obj.m(...)` first looks `m` up on the object's class and
raises `AttributeError` when the class does not define it.  These lists
are the literal method names defined by `class KubernetesClient`
(`k8s/client.py`) and `class GCPComputeClient` (`gcp/compute.py`). -/

def kubernetesClientMethods : List String :=
  ["is_node_ready", "get_node_by_name", "list_nodes_by_label", "patch_node_labels",
   "add_node_taint", "drain_node", "delete_node", "count_gameserver_pods_on_node",
   "wait_for_node_join", "get_ca_cert_hash", "get_node_custom_labels"]

def gcpComputeClientMethods : List String :=
  ["create_instance", "delete_instance", "instance_exists", "get_instance_status",
   "_wait_for_operation", "list_managed_instances"]

/-! ## `k8s/client.py`: counting allocated GameServers -/

/-- The status fields of one GameServer custom resource that
`count_gameserver_pods_on_node` reads. -/
structure GameServer where
  nodeName : Option String := none
  state : Option String := none
deriving DecidableEq

/-- The loop of `count_gameserver_pods_on_node`, carrying the
`allocated_count` and `total_count` accumulators of the source. -/
def countGsLoop (node_name : String) :
    List GameServer → Nat → Nat → Nat × Nat
  | [], allocated, total => (allocated, total)
  | gs :: rest, allocated, total =>
    if gs.nodeName = some node_name then
      if gs.state = some "Allocated" then
        countGsLoop node_name rest (allocated + 1) (total + 1)
      else
        countGsLoop node_name rest allocated (total + 1)
    else
      countGsLoop node_name rest allocated total

/-- `KubernetesClient.count_gameserver_pods_on_node`.  The `query`
argument is the outcome of `list_cluster_custom_object`: an
`ApiException` makes the function return the sentinel 999. -/
def count_gameserver_pods_on_node (query : Except Unit (List GameServer))
    (node_name : String) : Nat :=
  match query with
  | .error _ => 999
  | .ok gameservers => (countGsLoop node_name gameservers 0 0).1

/-! ## `handlers/reconciliation.py`: the Draining sweep -/

/-- `GAMESERVER_MAX_WAIT_SECONDS` at its default
(`GAMESERVER_MAX_WAIT_HOURS = 3`, times 3600). -/
def GAMESERVER_MAX_WAIT_SECONDS : Nat := 3 * 3600

/-- The cluster- and cloud-side observations `_cleanup_draining_vms`
makes for one record. -/
structure DrainEnv where
  /-- `get_node_by_name(gcp_vm_name)` found the cluster node object. -/
  gcpNodeExists : Bool
  /-- `instance_exists(gcp_vm_name)` on the cloud side. -/
  instanceExists : Bool
  /-- outcome of the GameServer list call behind
  `count_gameserver_pods_on_node`. -/
  gsQuery : Except Unit (List GameServer)
  /-- `datetime.now()` as epoch seconds. -/
  now : Nat
deriving DecidableEq

/-- What `_cleanup_draining_vms` did to one record and its node/VM. -/
structure DrainEffects where
  /-- `drain_node` (cordon) was called on the substitute. -/
  drainedNode : Bool := false
  /-- `delete_node` was called on the substitute. -/
  deletedNode : Bool := false
  /-- `delete_instance` was called on the VM. -/
  deletedVm : Bool := false
  store : Option NFStatus
  /-- the drain-timeout error log was emitted. -/
  loggedTimeoutError : Bool := false
  /-- the exception that aborted this record's processing (it also ends
  the whole sweep pass; `_reconciliation_loop` catches it and waits for
  the next tick). -/
  raised : Option PyExc := none
deriving DecidableEq

/-- The TypeError raised by `await gcp_client.delete_instance(...)`:
`GCPComputeClient.delete_instance` is a synchronous method returning
`bool`, so the call itself runs (and deletes the VM) and the `await` on
its result then raises. -/
def awaitBoolTypeError : PyExc :=
  .typeError "object bool can't be used in 'await' expression"

/-- The body of `_cleanup_draining_vms` for a single listed record
(`handlers/reconciliation.py`, lines 171-242).  Both `delete_instance`
call sites `await` the synchronous method, so whenever the VM still
exists the deletion happens and a TypeError then aborts the record's
processing before any `update_status(phase=Completed)`. -/
def cleanup_draining_record (env : DrainEnv) (store : Option NFStatus) : DrainEffects :=
  match store with
  | none => { store := none }
  | some st =>
    if st.phase ≠ some "Draining" then { store := store }
    else
      match st.gcpVmName with
      | none => { store := store }
      | some vm =>
        if vm = "" then { store := store }
        else if env.gcpNodeExists = false then
          -- node object already gone (line 191): delete the VM if it
          -- still exists; the `await` on the synchronous delete raises
          -- before the Completed status write of line 195
          if env.instanceExists then
            { deletedVm := true, store := store, raised := some awaitBoolTypeError }
          else
            { store := updateStatusStore store { phase := some "Completed" } }
        else
          if count_gameserver_pods_on_node env.gsQuery vm = 0 then
            let st1 := setConditionStore store "GameServersDrained" "True" none none
            if env.instanceExists then
              -- `success = await gcp_client.delete_instance(...)` (line
              -- 216): the VM is deleted, then the `await` raises, so
              -- `success` is never assigned and lines 218-225 never run
              { drainedNode := true, deletedNode := true, deletedVm := true,
                store := st1, raised := some awaitBoolTypeError }
            else
              { drainedNode := true, deletedNode := true, deletedVm := false,
                store := updateStatusStore st1 { phase := some "Completed" } }
          else
            match st.recoveryDetectedAt with
            | some r =>
              if GAMESERVER_MAX_WAIT_SECONDS < env.now - r then
                { store := store, loggedTimeoutError := true }
              else
                { store := store }
            | none => { store := store }

/-! ## `handlers/nodefailover_handler.py`: the CRD-driven handlers -/

/-- `MAX_VM_CREATION_ATTEMPTS` at its default. -/
def MAX_VM_CREATION_ATTEMPTS : Nat := 3

/-- `handle_recovering_phase`: calls `k8s_client.remove_node_taint`,
then advances the phase to Draining.  `KubernetesClient` defines no
`remove_node_taint` method, so the attribute lookup is modelled through
`kubernetesClientMethods`. -/
def handle_recovering_phase (store : Option NFStatus) : Except PyExc (Option NFStatus) :=
  if kubernetesClientMethods.contains "remove_node_taint" then
    .ok (updateStatusStore store { phase := some "Draining" })
  else
    .error (.attributeError "remove_node_taint")

/-- `handle_active_phase` after its 300 s grace sleep: `isReady` is the
`is_node_ready` result (`none` when the node is missing), `taintOk` the
result the taint call would return, `now` the clock.  A ready node moves
the record to Recovering with `recoveryDetectedAt = now`; otherwise the
handler calls `k8s_client.apply_out_of_service_taint`, a method
`KubernetesClient` does not define. -/
def handle_active_phase (isReady : Option Bool) (taintOk : Bool) (now : Nat)
    (store : Option NFStatus) : Except PyExc (Option NFStatus) :=
  if isReady = some true then
    .ok (setConditionStore
      (updateStatusStore store
        { phase := some "Recovering", recoveryDetectedAt := some now })
      "OnPremRecovered" "True" none none)
  else if kubernetesClientMethods.contains "apply_out_of_service_taint" then
    .ok (if taintOk then
      setConditionStore store "TaintApplied" "True" none
        (some "Out-of-service taint applied")
    else
      setConditionStore store "TaintApplied" "False" (some "TaintFailed") none)
  else
    .error (.attributeError "apply_out_of_service_taint")

/-- The record-side effects of `wait_for_node_join` in
`nodefailover_handler.py`, plus whether the handler deleted the cloud
VM.  The handler's only cloud access is the join wait; its body contains
no `delete_instance` call on any path. -/
structure JoinResult where
  store : Option NFStatus
  deletedVm : Bool
deriving DecidableEq

/-- `wait_for_node_join(vm_name, onprem_node_name, labels)`: `joined` is
the result of the 300 s join wait, `labelOk` the result of
`patch_node_labels`. -/
def wait_for_node_join_handler (joined labelOk : Bool)
    (store : Option NFStatus) : JoinResult :=
  if joined then
    if labelOk then
      { store := updateStatusStore
          (setConditionStore store "NodeJoined" "True" none
            (some "Node joined and labeled"))
          { phase := some "Active" },
        deletedVm := false }
    else
      { store := setConditionStore store "NodeJoined" "False"
          (some "LabelingFailed") none,
        deletedVm := false }
  else
    { store := setConditionStore store "NodeJoined" "False"
        (some "JoinTimeout") none,
      deletedVm := false }

/-- The timeout branch of `_wait_and_label_node` in
`handlers/node_watcher.py` (lines 355-369): it deletes the cloud VM when
it still exists and touches no NodeFailover record (the function has no
record-store access at all). -/
structure WatcherTimeoutEffects where
  deletedVm : Bool
  touchedRecord : Bool
deriving DecidableEq

def watcher_join_timeout (instanceExists : Bool) : WatcherTimeoutEffects :=
  { deletedVm := instanceExists, touchedRecord := false }

/-- The environment of one `create_failover_vm` run. -/
structure CfvEnv where
  nodeName : String
  /-- what `gcp_client.list_instances()` would return, were the method
  defined. -/
  instances : List String
  /-- `int(time.time())` used by `generate_vm_name`. -/
  timestamp : Nat
  /-- bootstrap token creation succeeds. -/
  tokenOk : Bool
  /-- CA certificate hash retrieval succeeds. -/
  caHashOk : Bool
  /-- `K8S_API_SERVER` is set. -/
  apiServerSet : Bool
  /-- result of `gcp_client.create_instance`. -/
  createOk : Bool
deriving DecidableEq

/-- The call `gcp_client.list_instances()`: `GCPComputeClient` defines
no `list_instances` method (only `list_managed_instances`), so the
attribute lookup raises. -/
def listInstancesCall (env : CfvEnv) : Except PyExc (List String) :=
  if gcpComputeClientMethods.contains "list_instances" then .ok env.instances
  else .error (.attributeError "list_instances")

/-- Result of the `try:` block of `create_failover_vm`: the outcome
(`ok` = returned normally, `error` = the exception the `except` branch
catches), whether `create_instance` was invoked, and the record after
the block's writes (the handler has just read and written the record, so
it is present throughout). -/
structure CfvTryResult where
  outcome : Except PyExc Unit
  createCalled : Bool
  store : NFStatus
deriving DecidableEq

/-- The `try:` block of `create_failover_vm` (`nodefailover_handler.py`
lines 90-169): sanitise the node name (`sanitized_node_name[0]` raises
`IndexError` on an empty result), scan `gcp_client.list_instances()` for
a VM with the `gcp-temp-<sanitized>` name prefix and adopt it, otherwise
generate a name, mint credentials and call `create_instance`. -/
def cfv_try_body (env : CfvEnv) (st : NFStatus) : CfvTryResult :=
  match pySanitize env.nodeName with
  | [] => { outcome := .error .indexError, createCalled := false, store := st }
  | c :: cs =>
    let sanitized := if c.isAlpha then c :: cs else "node-".toList ++ c :: cs
    let vmNamePfx := ("gcp-temp-".toList ++ sanitized).asString
    match listInstancesCall env with
    | .error e => { outcome := .error e, createCalled := false, store := st }
    | .ok instances =>
      match instances.find? fun nm => nm.startsWith vmNamePfx with
      | some existing =>
        { outcome := .ok (),
          createCalled := false,
          store := setCondition
            (updateStatus st { gcpVmName := some existing })
            "VMCreated" "True" none (some "VM already exists") }
      | none =>
        match generate_vm_name env.nodeName env.timestamp with
        | .error e => { outcome := .error e, createCalled := false, store := st }
        | .ok vmName =>
          if env.tokenOk = false then
            { outcome := .error (.otherError "Failed to create bootstrap token"),
              createCalled := false, store := st }
          else if env.caHashOk = false then
            { outcome := .error (.otherError "Failed to get CA certificate hash"),
              createCalled := false, store := st }
          else if env.apiServerSet = false then
            { outcome := .error (.otherError "K8S_API_SERVER environment variable not set"),
              createCalled := false, store := st }
          else if env.createOk then
            { outcome := .ok (),
              createCalled := true,
              store := setCondition
                (updateStatus st { gcpVmName := some vmName })
                "VMCreated" "True" none (some "VM created successfully") }
          else
            { outcome := .error (.otherError "VM creation failed"),
              createCalled := true, store := st }

/-- The observable result of a whole `create_failover_vm` run: the
exceptions its `except` branch caught (one per retry iteration, in
order), whether any iteration invoked `create_instance`, and the final
record store. -/
structure CfvResult where
  caught : List PyExc
  createCalled : Bool
  store : Option NFStatus
deriving DecidableEq

/-- `create_failover_vm(node_name, target_labels)`
(`nodefailover_handler.py` lines 66-192): re-read the record, stop with
`lastError` at the attempts cap, otherwise increment the counter, enter
the `try:` block, and on a caught exception write `lastError` and
condition `VMCreated = False` and retry (after backoff) while the
re-read counter is below the cap.  The recursion terminates because each
iteration increments the counter. -/
def create_failover_vm (env : CfvEnv) (store : Option NFStatus) : CfvResult :=
  match store with
  | none => { caught := [], createCalled := false, store := none }
  | some st =>
    if hMax : MAX_VM_CREATION_ATTEMPTS ≤ st.vmCreationAttempts then
      { caught := [], createCalled := false,
        store := some (updateStatus st { lastError := some "Max attempts (3) reached" }) }
    else
      let st1 := updateStatus st
        { vmCreationAttempts := some (st.vmCreationAttempts + 1), phase := some "Creating" }
      let tr := cfv_try_body env st1
      match tr.outcome with
      | .ok _ => { caught := [], createCalled := tr.createCalled, store := some tr.store }
      | .error e =>
        let st3 := setCondition
          (updateStatus tr.store { lastError := some "Failed to create VM" })
          "VMCreated" "False" (some "CreationFailed") none
        if h4 : st3.vmCreationAttempts < MAX_VM_CREATION_ATTEMPTS then
          let r := create_failover_vm env (some st3)
          { caught := e :: r.caught,
            createCalled := tr.createCalled || r.createCalled,
            store := r.store }
        else
          { caught := [e], createCalled := tr.createCalled, store := some st3 }
termination_by
  match store with
  | none => 0
  | some st => MAX_VM_CREATION_ATTEMPTS - st.vmCreationAttempts
decreasing_by
  have hb : (cfv_try_body env st1).store.vmCreationAttempts = st1.vmCreationAttempts := by
    unfold cfv_try_body
    rcases hcs : pySanitize env.nodeName with _ | ⟨c, cs⟩
    · simp [hcs]
    · simp only [hcs]
      rw [show listInstancesCall env = .error (.attributeError "list_instances") from rfl]
  have hattempts : st3.vmCreationAttempts = st.vmCreationAttempts + 1 := by
    calc st3.vmCreationAttempts
        = (cfv_try_body env st1).store.vmCreationAttempts := rfl
      _ = st1.vmCreationAttempts := hb
      _ = st.vmCreationAttempts + 1 := rfl
  show MAX_VM_CREATION_ATTEMPTS - st3.vmCreationAttempts <
    MAX_VM_CREATION_ATTEMPTS - st.vmCreationAttempts
  omega

/-! ## `handlers/node_event_handler.py`: node readiness events -/

/-- The unready branch of `on_node_event`: delete a Completed record and
create a fresh Pending one; leave a live record alone. -/
def on_node_event_unready (now : Nat) (store : Option NFStatus) : Option NFStatus :=
  match store with
  | some st =>
    if st.phase = some "Completed" then some (crdCreate now) else store
  | none => some (crdCreate now)

/-- The ready branch of `on_node_event`: any record whose phase is not
Recovering, Draining or Completed moves to Recovering with
`recoveryDetectedAt = now` and condition `OnPremRecovered = True`. -/
def on_node_event_ready (now : Nat) (store : Option NFStatus) : Option NFStatus :=
  match store with
  | none => none
  | some st =>
    if st.phase ≠ some "Recovering" ∧ st.phase ≠ some "Draining" ∧
        st.phase ≠ some "Completed" then
      setConditionStore
        (updateStatusStore store
          { phase := some "Recovering", recoveryDetectedAt := some now })
        "OnPremRecovered" "True" none none
    else store

/-! ## `handlers/reconciliation.py`: startup reconstruction -/

/-- `if not taint_condition or taint_condition.get("status") != "True"`. -/
def needsTaint (st : NFStatus) : Bool :=
  match getCondition st "TaintApplied" with
  | none => true
  | some c => c.status != "True"

/-- The record-present branch of `reconstruct_state` for one on-premise
node (`reconciliation.py` lines 60-97): skip Completed records; a
NotReady node with an Active record and no applied taint condition calls
the missing `apply_out_of_service_taint` and raises; a ready node with a
record outside Recovering/Draining/Completed moves to Recovering with
`recoveryDetectedAt = now`. -/
def reconstruct_existing_record (isReady : Option Bool) (now : Nat)
    (st : NFStatus) : Except PyExc (Option NFStatus) :=
  if st.phase = some "Completed" then .ok (some st)
  else if isReady ≠ some true ∧ st.phase = some "Active" ∧ needsTaint st then
    .error (.attributeError "apply_out_of_service_taint")
  else if isReady = some true ∧ st.phase ≠ some "Recovering" ∧
      st.phase ≠ some "Draining" ∧ st.phase ≠ some "Completed" then
    .ok (setConditionStore
      (updateStatusStore (some st)
        { phase := some "Recovering", recoveryDetectedAt := some now })
      "OnPremRecovered" "True" none none)
  else .ok (some st)

/-! ## The record-writing operations of the CRD path, as one step type -/

/-- One record-store-writing operation of the CRD-based handlers.  The
constructor arguments carry the operation's external observations. -/
inductive CrdOp where
  | nodeEventNotReady (now : Nat)
  | nodeEventReady (now : Nat)
  | createVm (env : CfvEnv)
  | nodeJoin (joined labelOk : Bool)
  | activePhase (isReady : Option Bool) (taintOk : Bool) (now : Nat)
  | recoveringPhase
  | drainSweep (env : DrainEnv)
  | startupReconcile (isReady : Option Bool) (now : Nat)

/-- The record store after the operation ran (to completion, or up to
its uncaught exception — each raising handler raises before any record
write on that path; the record-absent branch of `reconstruct_state`
raises on `list_instances` before it creates anything). -/
def applyCrdOp : CrdOp → Option NFStatus → Option NFStatus
  | .nodeEventNotReady now, store => on_node_event_unready now store
  | .nodeEventReady now, store => on_node_event_ready now store
  | .createVm env, store => (create_failover_vm env store).store
  | .nodeJoin joined labelOk, store => (wait_for_node_join_handler joined labelOk store).store
  | .activePhase isReady taintOk now, store =>
    match handle_active_phase isReady taintOk now store with
    | .ok s => s
    | .error _ => store
  | .recoveringPhase, store =>
    match handle_recovering_phase store with
    | .ok s => s
    | .error _ => store
  | .drainSweep env, store => (cleanup_draining_record env store).store
  | .startupReconcile isReady now, store =>
    match store with
    | none => none
    | some st =>
      match reconstruct_existing_record isReady now st with
      | .ok s => s
      | .error _ => store

/-- The exception every retry iteration of `create_failover_vm` catches:
`IndexError` when the node name sanitises to nothing, otherwise the
`AttributeError` from the `list_instances` lookup. -/
def cfvRaisedExc (env : CfvEnv) : PyExc :=
  if pySanitize env.nodeName = [] then .indexError
  else .attributeError "list_instances"

/-- An operation assigned `recoveryDetectedAt`: the new status carries a
value the old status did not have.  (Deleting a record and recreating it
fresh clears the field; that is not an assignment.) -/
def recoveryAssigned (st st' : NFStatus) : Prop :=
  ∃ v, st'.recoveryDetectedAt = some v ∧ st.recoveryDetectedAt ≠ some v

/-! ## Supporting facts about characters and decimal renderings -/

theorem toNat_ofNat_valid (m : Nat) (h : m < 0xD800) : (Char.ofNat m).toNat = m := by
  unfold Char.ofNat
  rw [dif_pos (Or.inl h)]
  rfl

theorem isUpper_iff (c : Char) : c.isUpper = true ↔ 65 ≤ c.toNat ∧ c.toNat ≤ 90 := by
  simp [Char.isUpper, Char.toNat, UInt32.le_def, BitVec.le_def, UInt32.toNat]

theorem isLower_iff (c : Char) : c.isLower = true ↔ 97 ≤ c.toNat ∧ c.toNat ≤ 122 := by
  simp [Char.isLower, Char.toNat, UInt32.le_def, BitVec.le_def, UInt32.toNat]

theorem isDigit_iff (c : Char) : c.isDigit = true ↔ 48 ≤ c.toNat ∧ c.toNat ≤ 57 := by
  simp [Char.isDigit, Char.toNat, UInt32.le_def, BitVec.le_def, UInt32.toNat]

theorem toLower_not_upper (c : Char) : (Char.toLower c).isUpper = false := by
  unfold Char.toLower
  by_cases h : 65 ≤ Char.toNat c ∧ Char.toNat c ≤ 90
  · rw [if_pos h]
    have h2 : (Char.ofNat (c.toNat + 32)).toNat = c.toNat + 32 := by
      apply toNat_ofNat_valid; omega
    rw [Bool.eq_false_iff]
    intro hu
    rw [isUpper_iff, h2] at hu
    omega
  · rw [if_neg h, Bool.eq_false_iff]
    intro hu
    rw [isUpper_iff] at hu
    exact h hu

theorem pySanitize_not_upper (s : String) : ∀ c ∈ pySanitize s, c.isUpper = false := by
  intro c hc
  unfold pySanitize at hc
  have hmem := List.mem_of_mem_filter hc
  rcases List.mem_map.mp hmem with ⟨b, hb, rfl⟩
  by_cases hb' : b = '_'
  · rw [if_pos hb']
    decide
  · rw [if_neg hb']
    rcases List.mem_map.mp hb with ⟨a, _, rfl⟩
    exact toLower_not_upper a

theorem pySanitize_charOk (s : String) : ∀ c ∈ pySanitize s, vmNameCharOk c := by
  intro c hc
  have hup := pySanitize_not_upper s c hc
  have hkeep := List.of_mem_filter hc
  rcases Bool.or_eq_true_iff.mp hkeep with halnum | heq
  · rcases Bool.or_eq_true_iff.mp (by simpa [Char.isAlphanum] using halnum) with halpha | hdig
    · rcases Bool.or_eq_true_iff.mp (by simpa [Char.isAlpha] using halpha) with hu | hl
      · rw [hup] at hu
        exact absurd hu (by decide)
      · exact Or.inl hl
    · exact Or.inr (Or.inl hdig)
  · exact Or.inr (Or.inr (by simpa using heq))

theorem toDigitsCore_eq_decDigits (fuel : Nat) :
    ∀ (n : Nat) (acc : List Char), n < fuel →
      Nat.toDigitsCore 10 fuel n acc = decDigits n ++ acc := by
  induction fuel with
  | zero => omega
  | succ f ih =>
    intro n acc h
    rw [Nat.toDigitsCore]
    by_cases h0 : n / 10 = 0
    · have hn : n < 10 := by omega
      rw [if_pos h0, decDigits, if_pos hn, Nat.mod_eq_of_lt hn]
      rfl
    · have hn : ¬ n < 10 := by omega
      have hd : n / 10 < n := Nat.div_lt_self (by omega) (by omega)
      rw [if_neg h0, ih (n / 10) _ (by omega)]
      conv_rhs => rw [decDigits]
      rw [if_neg hn, List.append_assoc]
      rfl

theorem repr_toList_eq_decDigits (n : Nat) : (Nat.repr n).toList = decDigits n := by
  show (Nat.toDigits 10 n).asString.toList = decDigits n
  unfold Nat.toDigits
  rw [toDigitsCore_eq_decDigits (n + 1) n [] (Nat.lt_succ_self n), List.append_nil]
  rfl

theorem digitChar_isDigit {d : Nat} (h : d < 10) : (Nat.digitChar d).isDigit = true := by
  interval_cases d <;> decide

theorem decDigits_all_digits (n : Nat) : ∀ c ∈ decDigits n, c.isDigit = true := by
  induction n using Nat.strong_induction_on with
  | _ n ih =>
    intro c hc
    rw [decDigits] at hc
    by_cases hn : n < 10
    · rw [if_pos hn] at hc
      rcases List.mem_singleton.mp hc with rfl
      exact digitChar_isDigit hn
    · rw [if_neg hn] at hc
      rcases List.mem_append.mp hc with h | h
      · exact ih (n / 10) (Nat.div_lt_self (by omega) (by omega)) c h
      · rcases List.mem_singleton.mp h with rfl
        exact digitChar_isDigit (Nat.mod_lt n (by omega))

theorem repr_all_digits (n : Nat) : ∀ c ∈ (Nat.repr n).toList, c.isDigit = true := by
  rw [repr_toList_eq_decDigits]
  exact decDigits_all_digits n

theorem digitChar_decode {d : Nat} (h : d < 10) : (Nat.digitChar d).toNat - 48 = d := by
  interval_cases d <;> decide

theorem decodeDecimal_decDigits (n : Nat) : decodeDecimal (decDigits n) = n := by
  induction n using Nat.strong_induction_on with
  | _ n ih =>
    rw [decDigits]
    by_cases hn : n < 10
    · rw [if_pos hn]
      show 10 * 0 + ((Nat.digitChar n).toNat - 48) = n
      rw [digitChar_decode hn]
      omega
    · rw [if_neg hn]
      unfold decodeDecimal
      rw [List.foldl_append]
      have h1 : List.foldl (fun a c => 10 * a + (c.toNat - 48)) 0 (decDigits (n / 10)) = n / 10 :=
        ih (n / 10) (Nat.div_lt_self (by omega) (by omega))
      rw [h1]
      show 10 * (n / 10) + ((Nat.digitChar (n % 10)).toNat - 48) = n
      rw [digitChar_decode (Nat.mod_lt n (by omega))]
      omega

theorem natRepr_injective : Function.Injective Nat.repr := by
  intro a b h
  have h2 : decDigits a = decDigits b := by
    rw [← repr_toList_eq_decDigits, ← repr_toList_eq_decDigits, h]
  have := congrArg decodeDecimal h2
  rwa [decodeDecimal_decDigits, decodeDecimal_decDigits] at this

theorem isDigit_ne_hyphen {c : Char} (h : c.isDigit = true) : c ≠ '-' := by
  intro h2
  subst h2
  exact absurd h (by decide)

theorem takeWhile_append_all (p : Char → Bool) (l1 l2 : List Char)
    (h : ∀ c ∈ l1, p c = true) :
    (l1 ++ l2).takeWhile p = l1 ++ l2.takeWhile p := by
  induction l1 with
  | nil => rfl
  | cons a l ih =>
    have ha : p a = true := h a (List.mem_cons_self a l)
    simp only [List.cons_append, List.takeWhile_cons, ha, if_true]
    rw [ih fun c hc => h c (List.mem_cons_of_mem a hc)]

theorem afterLastHyphen_append (p ts : List Char) (h : ∀ c ∈ ts, c ≠ '-') :
    afterLastHyphen (p ++ '-' :: ts) = ts := by
  unfold afterLastHyphen
  rw [List.reverse_append, List.reverse_cons, List.append_assoc]
  rw [takeWhile_append_all _ ts.reverse _ fun c hc => by
    simpa using h c (List.mem_reverse.mp hc)]
  simp

theorem gvnCore_afterLastHyphen (s ts : List Char) (h : ∀ c ∈ ts, c ≠ '-') :
    afterLastHyphen (gvnCore s ts) = ts := by
  unfold gvnCore
  by_cases hlen : 63 < ("gcp-temp-".toList ++ s ++ '-' :: ts).length
  · rw [if_pos hlen]
    simpa only [List.append_assoc] using
      afterLastHyphen_append ("gcp-temp-".toList ++ pySlice (63 - (ts.length : Int) - 10) s) ts h
  · rw [if_neg hlen]
    simpa only [List.append_assoc] using
      afterLastHyphen_append ("gcp-temp-".toList ++ s) ts h

theorem pySlice_subset (k : Int) (l : List Char) : pySlice k l ⊆ l := by
  unfold pySlice
  by_cases h : k < 0
  · rw [if_pos h]; exact List.take_subset _ l
  · rw [if_neg h]; exact List.take_subset _ l

theorem gvnCore_chars (s ts : List Char) (hs : ∀ c ∈ s, vmNameCharOk c)
    (hts : ∀ c ∈ ts, c.isDigit = true) : ∀ c ∈ gvnCore s ts, vmNameCharOk c := by
  have hfix : ∀ c ∈ "gcp-temp-".toList, vmNameCharOk c := by decide
  have hmid : ∀ (mid : List Char), (∀ c ∈ mid, vmNameCharOk c) →
      ∀ c ∈ "gcp-temp-".toList ++ mid ++ '-' :: ts, vmNameCharOk c := by
    intro mid hm c hc
    rcases List.mem_append.mp hc with h1 | h2
    · rcases List.mem_append.mp h1 with h3 | h4
      · exact hfix c h3
      · exact hm c h4
    · rcases List.mem_cons.mp h2 with rfl | h5
      · exact Or.inr (Or.inr rfl)
      · exact Or.inr (Or.inl (hts c h5))
  intro c hc
  unfold gvnCore at hc
  by_cases hlen : 63 < ("gcp-temp-".toList ++ s ++ '-' :: ts).length
  · rw [if_pos hlen] at hc
    refine hmid (pySlice (63 - (ts.length : Int) - 10) s)
      (fun d hd => hs d (pySlice_subset (63 - (ts.length : Int) - 10) s hd)) c ?_
    simpa only [List.append_assoc] using hc
  · rw [if_neg hlen] at hc
    exact hmid s hs c (by simpa only [List.append_assoc] using hc)

theorem gvnCore_length (s ts : List Char) (h : ts.length ≤ 53) :
    (gvnCore s ts).length ≤ 63 := by
  unfold gvnCore
  by_cases hlen : 63 < ("gcp-temp-".toList ++ s ++ '-' :: ts).length
  · rw [if_pos hlen]
    have hk : ¬ (63 - (ts.length : Int) - 10 < 0) := by omega
    rw [pySlice, if_neg hk]
    have htake : (s.take (63 - (ts.length : Int) - 10).toNat).length ≤ 53 - ts.length := by
      rw [List.length_take]
      omega
    simp only [List.length_append, List.length_cons, String.length]
    have h9 : "gcp-temp-".toList.length = 9 := by decide
    omega
  · rw [if_neg hlen]
    omega

theorem gvnCore_cons (s ts : List Char) :
    ∃ tail, gvnCore s ts = 'g' :: tail := by
  unfold gvnCore
  by_cases hlen : 63 < ("gcp-temp-".toList ++ s ++ '-' :: ts).length
  · rw [if_pos hlen]
    exact ⟨"cp-temp-".toList ++ pySlice (63 - (ts.length : Int) - 10) s ++ '-' :: ts, rfl⟩
  · rw [if_neg hlen]
    exact ⟨"cp-temp-".toList ++ s ++ '-' :: ts, rfl⟩

theorem asString_toList (l : List Char) : l.asString.toList = l := rfl

theorem toList_length (s : String) : s.toList.length = s.length := rfl

theorem string_toList_inj {a b : String} (h : a.toList = b.toList) : a = b := by
  cases a
  cases b
  exact congrArg String.mk (by simpa [String.toList] using h)

theorem generate_vm_name_eq (name : String) (t : Nat) {c : Char} {cs : List Char}
    (hcs : pySanitize name = c :: cs) :
    generate_vm_name name t =
      .ok (gvnCore (if c.isAlpha then c :: cs else "node-".toList ++ c :: cs)
        (Nat.repr t).toList).asString := by
  unfold generate_vm_name
  rw [hcs]

/-! ## Claims C7, C8, C10: the VM name generator -/

/-- Claim C8: for every node name whose sanitised form is nonempty, the
output of `generate_vm_name` matches `^[a-z][a-z0-9-]{0,62}$` (so its
length stays at most 63 even when the name is truncated), and two calls
on the same name with different timestamps return different names.  The
`≤ 53` bounds on the rendered timestamps hold for every unix-seconds
value (they fail only beyond 10^53). -/
theorem generate_vm_name_regex_and_unique
    (name : String) (t1 t2 : Nat)
    (hs : pySanitize name ≠ [])
    (h1 : (Nat.repr t1).length ≤ 53) (h2 : (Nat.repr t2).length ≤ 53)
    (hne : t1 ≠ t2) :
    ∃ o1 o2, generate_vm_name name t1 = .ok o1 ∧ generate_vm_name name t2 = .ok o2 ∧
      vmNameRegexOk o1 ∧ vmNameRegexOk o2 ∧ o1 ≠ o2 := by
  obtain ⟨c, cs, hcs⟩ : ∃ c cs, pySanitize name = c :: cs := by
    cases h : pySanitize name with
    | nil => exact absurd h hs
    | cons a l => exact ⟨a, l, rfl⟩
  have hsub : ∀ d ∈ c :: cs, vmNameCharOk d := by
    intro d hd
    exact pySanitize_charOk name d (hcs ▸ hd)
  have hsanOk : ∀ d ∈ (if c.isAlpha then c :: cs else "node-".toList ++ c :: cs),
      vmNameCharOk d := by
    intro d hd
    by_cases ha : c.isAlpha
    · rw [if_pos ha] at hd
      exact hsub d hd
    · rw [if_neg ha] at hd
      rcases List.mem_append.mp hd with h5 | h6
      · have hnode : ∀ x ∈ "node-".toList, vmNameCharOk x := by decide
        exact hnode d h5
      · exact hsub d h6
  have hreg : ∀ t : Nat, (Nat.repr t).length ≤ 53 →
      vmNameRegexOk ((gvnCore (if c.isAlpha then c :: cs else "node-".toList ++ c :: cs)
        (Nat.repr t).toList).asString) := by
    intro t ht
    obtain ⟨tail, htail⟩ :=
      gvnCore_cons (if c.isAlpha then c :: cs else "node-".toList ++ c :: cs) (Nat.repr t).toList
    refine ⟨'g', tail, ?_, by decide, ?_, ?_⟩
    · rw [asString_toList, htail]
    · have hl := gvnCore_length (if c.isAlpha then c :: cs else "node-".toList ++ c :: cs)
        (Nat.repr t).toList (by rw [toList_length]; exact ht)
      rw [htail] at hl
      simp only [List.length_cons] at hl
      omega
    · intro d hd
      refine gvnCore_chars _ _ hsanOk (repr_all_digits t) d ?_
      rw [htail]
      exact List.mem_cons_of_mem _ hd
  refine ⟨_, _, generate_vm_name_eq name t1 hcs, generate_vm_name_eq name t2 hcs,
    hreg t1 h1, hreg t2 h2, ?_⟩
  intro heq
  have hlists := congrArg String.toList heq
  rw [asString_toList, asString_toList] at hlists
  have hts : (Nat.repr t1).toList = (Nat.repr t2).toList := by
    have e1 := gvnCore_afterLastHyphen
      (if c.isAlpha then c :: cs else "node-".toList ++ c :: cs) (Nat.repr t1).toList
      (fun d hd => isDigit_ne_hyphen (repr_all_digits t1 d hd))
    have e2 := gvnCore_afterLastHyphen
      (if c.isAlpha then c :: cs else "node-".toList ++ c :: cs) (Nat.repr t2).toList
      (fun d hd => isDigit_ne_hyphen (repr_all_digits t2 d hd))
    rw [← e1, ← e2, hlists]
  exact hne (natRepr_injective (string_toList_inj hts))

/-- Witness for claim C8 at the node name `Worker_01` and two concrete
timestamps. -/
theorem generate_vm_name_regex_and_unique_witness :
    ∃ o1 o2, generate_vm_name "Worker_01" 1700000000 = .ok o1 ∧
      generate_vm_name "Worker_01" 1700000001 = .ok o2 ∧
      vmNameRegexOk o1 ∧ vmNameRegexOk o2 ∧ o1 ≠ o2 :=
  generate_vm_name_regex_and_unique "Worker_01" 1700000000 1700000001
    (by decide) (by decide) (by decide) (by decide)

/-- Claim C7, counterexample: on the node name `Worker_01` the generator
returns `gcp-temp-worker-01-<timestamp>`, not a name with the prefix
`cloud-temp-worker-01-` as claimed: evaluated at timestamp 1700000000 the
result differs from the claimed name. -/
theorem generate_vm_name_worker01_not_cloud_temp :
    generate_vm_name "Worker_01" 1700000000 = .ok "gcp-temp-worker-01-1700000000" ∧
    generate_vm_name "Worker_01" 1700000000 ≠
      .ok ("cloud-temp-worker-01-" ++ Nat.repr 1700000000) := by
  refine ⟨rfl, fun h => ?_⟩
  rw [show generate_vm_name "Worker_01" 1700000000 = .ok "gcp-temp-worker-01-1700000000"
    from rfl] at h
  have h2 := Except.ok.inj h
  exact absurd h2 (by decide)

/-- Claim C7, amended: `generate_vm_name` applied to `Worker_01` returns
the prefix `gcp-temp-worker-01-` followed by the unix-seconds timestamp
(the bound on the rendered timestamp holds for every unix-seconds
value). -/
theorem generate_vm_name_worker01 (t : Nat) (ht : (Nat.repr t).length ≤ 44) :
    generate_vm_name "Worker_01" t = .ok ("gcp-temp-worker-01-" ++ Nat.repr t) := by
  have hcs : pySanitize "Worker_01" = 'w' :: "orker-01".toList := by decide
  rw [generate_vm_name_eq "Worker_01" t hcs]
  have halpha : ('w' : Char).isAlpha = true := by decide
  rw [if_pos halpha]
  have hts : (Nat.repr t).toList.length ≤ 44 := by
    rw [toList_length]
    exact ht
  have hnotrunc : ¬ 63 <
      ("gcp-temp-".toList ++ ('w' :: "orker-01".toList) ++ '-' :: (Nat.repr t).toList).length := by
    have h9 : "gcp-temp-".toList.length = 9 := by decide
    have ho : "orker-01".toList.length = 8 := by decide
    simp only [List.length_append, List.length_cons, h9, ho]
    omega
  unfold gvnCore
  rw [if_neg hnotrunc]
  congr 1

/-- Witness for the amended claim C7 at timestamp 1700000000. -/
theorem generate_vm_name_worker01_witness :
    generate_vm_name "Worker_01" 1700000000 =
      .ok ("gcp-temp-worker-01-" ++ Nat.repr 1700000000) :=
  generate_vm_name_worker01 1700000000 (by decide)

/-- Claim C10: `generate_vm_name` raises `IndexError` whenever the
sanitised node name is empty, because `sanitized[0]` is read without an
emptiness guard. -/
theorem generate_vm_name_empty_sanitized (name : String) (t : Nat)
    (h : pySanitize name = []) :
    generate_vm_name name t = .error .indexError := by
  unfold generate_vm_name
  rw [h]

/-- Witness for claim C10 at the inputs `"."` and `""`, both of which
sanitise to the empty string. -/
theorem generate_vm_name_empty_sanitized_witness :
    pySanitize "." = [] ∧ pySanitize "" = [] ∧
    generate_vm_name "." 0 = .error .indexError ∧
    generate_vm_name "" 0 = .error .indexError :=
  ⟨by decide, by decide,
    generate_vm_name_empty_sanitized "." 0 (by decide),
    generate_vm_name_empty_sanitized "" 0 (by decide)⟩

/-! ## The retry loop of `create_failover_vm` -/

theorem cfv_try_body_always_err (env : CfvEnv) (store : NFStatus) :
    cfv_try_body env store =
      { outcome := .error (cfvRaisedExc env), createCalled := false, store := store } := by
  unfold cfv_try_body cfvRaisedExc
  rcases hcs : pySanitize env.nodeName with _ | ⟨c, cs⟩
  · simp [hcs]
  · simp only [hcs]
    rw [show listInstancesCall env = .error (.attributeError "list_instances") from rfl]
    simp

theorem create_failover_vm_step (env : CfvEnv) (st : NFStatus)
    (h : ¬ MAX_VM_CREATION_ATTEMPTS ≤ st.vmCreationAttempts) :
    create_failover_vm env (some st) =
      if (setCondition
            (updateStatus (updateStatus st
              { vmCreationAttempts := some (st.vmCreationAttempts + 1),
                phase := some "Creating" })
              { lastError := some "Failed to create VM" })
            "VMCreated" "False" (some "CreationFailed") none).vmCreationAttempts <
          MAX_VM_CREATION_ATTEMPTS then
        { caught := cfvRaisedExc env ::
            (create_failover_vm env (some (setCondition
              (updateStatus (updateStatus st
                { vmCreationAttempts := some (st.vmCreationAttempts + 1),
                  phase := some "Creating" })
                { lastError := some "Failed to create VM" })
              "VMCreated" "False" (some "CreationFailed") none))).caught,
          createCalled := (create_failover_vm env (some (setCondition
              (updateStatus (updateStatus st
                { vmCreationAttempts := some (st.vmCreationAttempts + 1),
                  phase := some "Creating" })
                { lastError := some "Failed to create VM" })
              "VMCreated" "False" (some "CreationFailed") none))).createCalled,
          store := (create_failover_vm env (some (setCondition
              (updateStatus (updateStatus st
                { vmCreationAttempts := some (st.vmCreationAttempts + 1),
                  phase := some "Creating" })
                { lastError := some "Failed to create VM" })
              "VMCreated" "False" (some "CreationFailed") none))).store }
      else
        { caught := [cfvRaisedExc env], createCalled := false,
          store := some (setCondition
            (updateStatus (updateStatus st
              { vmCreationAttempts := some (st.vmCreationAttempts + 1),
                phase := some "Creating" })
              { lastError := some "Failed to create VM" })
            "VMCreated" "False" (some "CreationFailed") none) } := by
  conv_lhs => rw [create_failover_vm]
  rw [dif_neg h]
  simp only [cfv_try_body_always_err env, Bool.false_or, dite_eq_ite]

/-! ## Further facts about the record store -/

theorem find?_filtered_append (l : List NFCondition) (ty : String) (new : NFCondition) :
    ((l.filter fun c => c.type != ty) ++ [new]).find? (fun c => c.type == ty) =
      [new].find? (fun c => c.type == ty) := by
  induction l with
  | nil => rfl
  | cons a l ih =>
    by_cases ha : a.type = ty
    · have hbe : (a.type == ty) = true := by simpa using ha
      simp only [List.filter_cons, bne, hbe, Bool.not_true, if_false]
      exact ih
    · have hbe : (a.type == ty) = false := by simpa using ha
      simp only [List.filter_cons, bne, hbe, Bool.not_false, if_true, List.cons_append,
        List.find?_cons, hbe]
      exact ih

theorem getCondition_setCondition (st : NFStatus) (ty s : String) (r m : Option String) :
    getCondition (setCondition st ty s r m) ty =
      some { type := ty, status := s, reason := r, message := m } := by
  unfold getCondition setCondition
  rw [find?_filtered_append]
  simp [List.find?]

theorem setCondition_fields (st : NFStatus) (ty s : String) (r m : Option String) :
    (setCondition st ty s r m).phase = st.phase ∧
    (setCondition st ty s r m).vmCreationAttempts = st.vmCreationAttempts ∧
    (setCondition st ty s r m).recoveryDetectedAt = st.recoveryDetectedAt ∧
    (setCondition st ty s r m).lastError = st.lastError ∧
    (setCondition st ty s r m).gcpVmName = st.gcpVmName :=
  ⟨rfl, rfl, rfl, rfl, rfl⟩

/-- The whole retry loop of `create_failover_vm`, by induction on the
distance to the attempts cap: every iteration catches the same exception
(the try block always raises before `create_instance`), the loop runs
until the counter reaches the cap, no VM is ever created, and the final
record carries `lastError` and condition `VMCreated = False`. -/
theorem create_failover_vm_loop (k : Nat) :
    ∀ (env : CfvEnv) (st : NFStatus),
      MAX_VM_CREATION_ATTEMPTS - st.vmCreationAttempts ≤ k →
      st.vmCreationAttempts < MAX_VM_CREATION_ATTEMPTS →
      ∃ stF,
        create_failover_vm env (some st) =
          { caught := List.replicate (MAX_VM_CREATION_ATTEMPTS - st.vmCreationAttempts)
              (cfvRaisedExc env),
            createCalled := false, store := some stF } ∧
        stF.vmCreationAttempts = MAX_VM_CREATION_ATTEMPTS ∧
        stF.phase = some "Creating" ∧
        stF.lastError = some "Failed to create VM" ∧
        stF.recoveryDetectedAt = st.recoveryDetectedAt ∧
        getCondition stF "VMCreated" =
          some { type := "VMCreated", status := "False", reason := some "CreationFailed",
                 message := none } := by
  induction k with
  | zero =>
    intro env st hk hlt
    omega
  | succ k ih =>
    intro env st hk hlt
    rw [create_failover_vm_step env st (by omega)]
    have ha3 : (setCondition (updateStatus (updateStatus st
        { vmCreationAttempts := some (st.vmCreationAttempts + 1), phase := some "Creating" })
        { lastError := some "Failed to create VM" })
        "VMCreated" "False" (some "CreationFailed") none).vmCreationAttempts
        = st.vmCreationAttempts + 1 := rfl
    by_cases hrec : st.vmCreationAttempts + 1 < MAX_VM_CREATION_ATTEMPTS
    · rw [if_pos (ha3 ▸ hrec)]
      obtain ⟨stF, hrw, hp1, hp2, hp3, hp4, hp5⟩ := ih env
        (setCondition (updateStatus (updateStatus st
          { vmCreationAttempts := some (st.vmCreationAttempts + 1), phase := some "Creating" })
          { lastError := some "Failed to create VM" })
          "VMCreated" "False" (some "CreationFailed") none)
        (by rw [ha3]; omega) (ha3 ▸ hrec)
      rw [ha3] at hrw
      rw [hrw]
      refine ⟨stF, ?_, hp1, hp2, hp3, hp4, hp5⟩
      rw [show MAX_VM_CREATION_ATTEMPTS - st.vmCreationAttempts =
        (MAX_VM_CREATION_ATTEMPTS - (st.vmCreationAttempts + 1)) + 1 from by omega,
        List.replicate_succ]
    · rw [if_neg (fun hc => hrec (ha3 ▸ hc))]
      refine ⟨_, ?_, ha3.trans (by omega), rfl, rfl, rfl,
        getCondition_setCondition _ _ _ _ _⟩
      rw [show MAX_VM_CREATION_ATTEMPTS - st.vmCreationAttempts = 1 from by omega,
        List.replicate_one]

/-! ## Claim C1: `create_failover_vm` can never create a VM -/

/-- Claim C1, amended: every invocation of `create_failover_vm` that
passes the attempts check and whose node name sanitises to a nonempty
string raises `AttributeError` at the pre-existing-VM scan
(`gcp_client.list_instances()` does not exist on `GCPComputeClient`);
every retry does the same; each time the generic failure branch catches
the exception and writes `lastError` and condition `VMCreated = False`;
`create_instance` is unreachable and no VM is ever created. -/
theorem create_failover_vm_never_creates
    (env : CfvEnv) (st : NFStatus)
    (hs : pySanitize env.nodeName ≠ [])
    (hatt : st.vmCreationAttempts < MAX_VM_CREATION_ATTEMPTS) :
    (create_failover_vm env (some st)).caught ≠ [] ∧
    (∀ e ∈ (create_failover_vm env (some st)).caught,
      e = .attributeError "list_instances") ∧
    (create_failover_vm env (some st)).createCalled = false ∧
    ∃ stF, (create_failover_vm env (some st)).store = some stF ∧
      stF.lastError = some "Failed to create VM" ∧
      getCondition stF "VMCreated" =
        some { type := "VMCreated", status := "False", reason := some "CreationFailed",
               message := none } := by
  obtain ⟨stF, hrw, hp1, hp2, hp3, hp4, hp5⟩ :=
    create_failover_vm_loop (MAX_VM_CREATION_ATTEMPTS - st.vmCreationAttempts) env st
      (le_refl _) hatt
  have hexc : cfvRaisedExc env = .attributeError "list_instances" := by
    unfold cfvRaisedExc
    rw [if_neg hs]
  rw [hrw]
  refine ⟨?_, ?_, rfl, stF, rfl, hp3, hp5⟩
  · intro hc
    have := congrArg List.length hc
    simp only [List.length_replicate, List.length_nil] at this
    omega
  · intro e he
    exact (List.eq_of_mem_replicate he).trans hexc

/-- Witness for the amended claim C1 at the node name `worker-01` and a
fresh Pending record. -/
theorem create_failover_vm_never_creates_witness :
    (create_failover_vm
      { nodeName := "worker-01", instances := [], timestamp := 0, tokenOk := true,
        caHashOk := true, apiServerSet := true, createOk := true }
      (some (crdCreate 0))).caught ≠ [] ∧
    (∀ e ∈ (create_failover_vm
      { nodeName := "worker-01", instances := [], timestamp := 0, tokenOk := true,
        caHashOk := true, apiServerSet := true, createOk := true }
      (some (crdCreate 0))).caught, e = .attributeError "list_instances") ∧
    (create_failover_vm
      { nodeName := "worker-01", instances := [], timestamp := 0, tokenOk := true,
        caHashOk := true, apiServerSet := true, createOk := true }
      (some (crdCreate 0))).createCalled = false ∧
    ∃ stF, (create_failover_vm
      { nodeName := "worker-01", instances := [], timestamp := 0, tokenOk := true,
        caHashOk := true, apiServerSet := true, createOk := true }
      (some (crdCreate 0))).store = some stF ∧
      stF.lastError = some "Failed to create VM" ∧
      getCondition stF "VMCreated" =
        some { type := "VMCreated", status := "False", reason := some "CreationFailed",
               message := none } :=
  create_failover_vm_never_creates
    { nodeName := "worker-01", instances := [], timestamp := 0, tokenOk := true,
      caHashOk := true, apiServerSet := true, createOk := true }
    (crdCreate 0) (by decide) (by decide)

/-- Claim C1, counterexample: the node name `"."` sanitises to the empty
string, so an invocation that passes the attempts check raises
`IndexError` at `sanitized_node_name[0]` — not `AttributeError` at the
pre-existing-VM scan — on every one of its three iterations (though
still no VM is created). -/
theorem create_failover_vm_dot_raises_index_error :
    (crdCreate 0).vmCreationAttempts < MAX_VM_CREATION_ATTEMPTS ∧
    (create_failover_vm
      { nodeName := ".", instances := [], timestamp := 0, tokenOk := true,
        caHashOk := true, apiServerSet := true, createOk := true }
      (some (crdCreate 0))).caught =
      [PyExc.indexError, PyExc.indexError, PyExc.indexError] ∧
    PyExc.indexError ≠ PyExc.attributeError "list_instances" := by
  refine ⟨by decide, ?_, by decide⟩
  obtain ⟨stF, hrw, -⟩ := create_failover_vm_loop 3
    { nodeName := ".", instances := [], timestamp := 0, tokenOk := true,
      caHashOk := true, apiServerSet := true, createOk := true }
    (crdCreate 0) (by decide) (by decide)
  rw [hrw]
  rfl

/-! ## Claim C6: the Draining sweep while GameServers remain -/

/-- Claim C6, counterexample: with the allocated GameServer count
nonzero but the substitute's node object gone from the cluster, the
sweep still acts on the record.  With the VM present it deletes the VM
(the `await` on the synchronous `delete_instance` then raises TypeError
before any status write); with the VM already absent it sets the phase
to Completed.  Either way, "no deletion of the VM and no phase change"
fails. -/
theorem cleanup_draining_deletes_despite_allocated :
    count_gameserver_pods_on_node
      (.ok [{ nodeName := some "vm-1", state := some "Allocated" }]) "vm-1" = 1 ∧
    (cleanup_draining_record
      { gcpNodeExists := false, instanceExists := true,
        gsQuery := .ok [{ nodeName := some "vm-1", state := some "Allocated" }], now := 0 }
      (some { phase := some "Draining", gcpVmName := some "vm-1",
              recoveryDetectedAt := some 0 })).deletedVm = true ∧
    (cleanup_draining_record
      { gcpNodeExists := false, instanceExists := true,
        gsQuery := .ok [{ nodeName := some "vm-1", state := some "Allocated" }], now := 0 }
      (some { phase := some "Draining", gcpVmName := some "vm-1",
              recoveryDetectedAt := some 0 })).raised = some awaitBoolTypeError ∧
    (cleanup_draining_record
      { gcpNodeExists := false, instanceExists := false,
        gsQuery := .ok [{ nodeName := some "vm-1", state := some "Allocated" }], now := 0 }
      (some { phase := some "Draining", gcpVmName := some "vm-1",
              recoveryDetectedAt := some 0 })).store =
      some { phase := some "Completed", gcpVmName := some "vm-1",
             recoveryDetectedAt := some 0 } :=
  ⟨rfl, rfl, rfl, rfl⟩

/-- Claim C6, amended: for every record in phase Draining whose
substitute node object still exists in the cluster and whose allocated
GameServer count is nonzero, the periodic sweep cordons nothing, deletes
neither the cluster node object nor the VM, and leaves the record
unchanged; when `now - recoveryDetectedAt` exceeds
`GAMESERVER_MAX_WAIT_SECONDS` it only emits the error log and keeps
waiting. -/
theorem cleanup_draining_waits_while_allocated
    (env : DrainEnv) (st : NFStatus) (vm : String)
    (hphase : st.phase = some "Draining")
    (hvm : st.gcpVmName = some vm) (hvmne : vm ≠ "")
    (hnode : env.gcpNodeExists = true)
    (hcnt : count_gameserver_pods_on_node env.gsQuery vm ≠ 0) :
    (cleanup_draining_record env (some st)).drainedNode = false ∧
    (cleanup_draining_record env (some st)).deletedNode = false ∧
    (cleanup_draining_record env (some st)).deletedVm = false ∧
    (cleanup_draining_record env (some st)).store = some st ∧
    (∀ r, st.recoveryDetectedAt = some r →
      GAMESERVER_MAX_WAIT_SECONDS < env.now - r →
      (cleanup_draining_record env (some st)).loggedTimeoutError = true) := by
  rcases hr : st.recoveryDetectedAt with _ | r
  · have heff : cleanup_draining_record env (some st) = { store := some st } := by
      simp [cleanup_draining_record, hphase, hvm, hvmne, hnode, hcnt, hr]
    rw [heff]
    refine ⟨rfl, rfl, rfl, rfl, ?_⟩
    intro r' hr'
    exact absurd hr' (by simp)
  · by_cases ht : GAMESERVER_MAX_WAIT_SECONDS < env.now - r
    · have heff : cleanup_draining_record env (some st) =
          { store := some st, loggedTimeoutError := true } := by
        simp [cleanup_draining_record, hphase, hvm, hvmne, hnode, hcnt, hr, ht]
      rw [heff]
      exact ⟨rfl, rfl, rfl, rfl, fun _ _ _ => rfl⟩
    · have heff : cleanup_draining_record env (some st) = { store := some st } := by
        simp [cleanup_draining_record, hphase, hvm, hvmne, hnode, hcnt, hr, ht]
      rw [heff]
      refine ⟨rfl, rfl, rfl, rfl, ?_⟩
      intro r' hr' hgt
      rw [← Option.some.inj hr'] at hgt
      exact absurd hgt ht

/-- Witness for the amended claim C6: one allocated GameServer pinned to
the substitute, node object present, drain wait already over three
hours; the sweep leaves everything alone and emits the timeout error. -/
theorem cleanup_draining_waits_while_allocated_witness :
    (cleanup_draining_record
      { gcpNodeExists := true, instanceExists := true,
        gsQuery := .ok [{ nodeName := some "vm-1", state := some "Allocated" }], now := 20000 }
      (some { phase := some "Draining", gcpVmName := some "vm-1",
              recoveryDetectedAt := some 0 })).deletedNode = false ∧
    (cleanup_draining_record
      { gcpNodeExists := true, instanceExists := true,
        gsQuery := .ok [{ nodeName := some "vm-1", state := some "Allocated" }], now := 20000 }
      (some { phase := some "Draining", gcpVmName := some "vm-1",
              recoveryDetectedAt := some 0 })).deletedVm = false ∧
    (cleanup_draining_record
      { gcpNodeExists := true, instanceExists := true,
        gsQuery := .ok [{ nodeName := some "vm-1", state := some "Allocated" }], now := 20000 }
      (some { phase := some "Draining", gcpVmName := some "vm-1",
              recoveryDetectedAt := some 0 })).store =
      some { phase := some "Draining", gcpVmName := some "vm-1",
             recoveryDetectedAt := some 0 } ∧
    (cleanup_draining_record
      { gcpNodeExists := true, instanceExists := true,
        gsQuery := .ok [{ nodeName := some "vm-1", state := some "Allocated" }], now := 20000 }
      (some { phase := some "Draining", gcpVmName := some "vm-1",
              recoveryDetectedAt := some 0 })).loggedTimeoutError = true := by
  have h := cleanup_draining_waits_while_allocated
    { gcpNodeExists := true, instanceExists := true,
      gsQuery := .ok [{ nodeName := some "vm-1", state := some "Allocated" }], now := 20000 }
    { phase := some "Draining", gcpVmName := some "vm-1", recoveryDetectedAt := some 0 }
    "vm-1" rfl rfl (by decide) rfl (by decide)
  exact ⟨h.2.1, h.2.2.1, h.2.2.2.1, h.2.2.2.2 0 rfl (by decide)⟩

/-! ## Claim C2: the Recovering-phase handler -/

/-- Claim C2: for every record store, `handle_recovering_phase` raises an
unhandled `AttributeError` (there is no `remove_node_taint` method on
`KubernetesClient`) before its status update, so it never returns
normally and never advances the phase to Draining. -/
theorem handle_recovering_phase_attribute_error (store : Option NFStatus) :
    handle_recovering_phase store = .error (.attributeError "remove_node_taint") ∧
    ∀ store', handle_recovering_phase store ≠ .ok store' := by
  refine ⟨rfl, ?_⟩
  intro store' h
  rw [show handle_recovering_phase store = .error (.attributeError "remove_node_taint")
    from rfl] at h
  exact Except.noConfusion h

/-! ## Claim C4: the join-timeout paths -/

/-- Claim C4 (divergence, evaluated on the failing input `joined = false`):
the CRD join handler `wait_for_node_join` writes condition
`NodeJoined = False, reason = JoinTimeout` but performs no VM deletion on
any path, while the watcher-based `_wait_and_label_node` timeout branch
deletes the VM but writes no record condition.  No handler does both, so
the claimed conjunction fails. -/
theorem join_timeout_condition_without_delete (labelOk : Bool) (store : Option NFStatus) :
    (wait_for_node_join_handler false labelOk store).deletedVm = false ∧
    (wait_for_node_join_handler false labelOk store).store =
      setConditionStore store "NodeJoined" "False" (some "JoinTimeout") none ∧
    (∀ joined labelOk2 : Bool, (wait_for_node_join_handler joined labelOk2 store).deletedVm = false) ∧
    watcher_join_timeout true = { deletedVm := true, touchedRecord := false } := by
  refine ⟨rfl, rfl, ?_, rfl⟩
  intro joined labelOk2
  cases joined <;> cases labelOk2 <;> rfl

/-! ## Claim C9: counting allocated GameServers and the error sentinel -/

theorem countGsLoop_spec (node : String) (gss : List GameServer) :
    ∀ a t : Nat, (countGsLoop node gss a t).1 =
      a + (gss.filter fun gs =>
        decide (gs.nodeName = some node) && decide (gs.state = some "Allocated")).length := by
  induction gss with
  | nil => intro a t; simp [countGsLoop]
  | cons gs rest ih =>
    intro a t
    unfold countGsLoop
    by_cases h1 : gs.nodeName = some node
    · rw [if_pos h1]
      by_cases h2 : gs.state = some "Allocated"
      · rw [if_pos h2, ih]
        simp [List.filter_cons, h1, h2]
        omega
      · rw [if_neg h2, ih]
        simp [List.filter_cons, h1, h2]
    · rw [if_neg h1, ih]
      simp [List.filter_cons, h1]

/-- Claim C9: `count_gameserver_pods_on_node` returns exactly the number
of GameServers pinned to the node in state Allocated; an API error makes
it return the sentinel 999; when the substitute's node object exists and
the list call fails, the Draining sweep deletes nothing and leaves the
record unchanged; and the sweep deletes the cluster node object only
when the computed count is 0. -/
theorem count_gameservers_exact_and_sentinel :
    (∀ (gss : List GameServer) (node : String),
      count_gameserver_pods_on_node (.ok gss) node =
        (gss.filter fun gs =>
          decide (gs.nodeName = some node) && decide (gs.state = some "Allocated")).length) ∧
    (∀ node : String, count_gameserver_pods_on_node (.error ()) node = 999) ∧
    (∀ (env : DrainEnv) (st : NFStatus) (vm : String),
      st.phase = some "Draining" → st.gcpVmName = some vm → vm ≠ "" →
      env.gcpNodeExists = true → env.gsQuery = .error () →
      (cleanup_draining_record env (some st)).drainedNode = false ∧
      (cleanup_draining_record env (some st)).deletedNode = false ∧
      (cleanup_draining_record env (some st)).deletedVm = false ∧
      (cleanup_draining_record env (some st)).store = some st) ∧
    (∀ (env : DrainEnv) (store : Option NFStatus),
      (cleanup_draining_record env store).deletedNode = true →
      ∃ st vm, store = some st ∧ st.gcpVmName = some vm ∧
        count_gameserver_pods_on_node env.gsQuery vm = 0) := by
  refine ⟨?_, fun _ => rfl, ?_, ?_⟩
  · intro gss node
    show (countGsLoop node gss 0 0).1 = _
    rw [countGsLoop_spec]
    omega
  · intro env st vm hphase hvm hvmne hnode herr
    have hcnt : ¬ count_gameserver_pods_on_node env.gsQuery vm = 0 := by
      rw [herr]
      simp [count_gameserver_pods_on_node]
    rcases hr : st.recoveryDetectedAt with _ | r
    · simp [cleanup_draining_record, hphase, hvm, hvmne, hnode, hcnt, hr]
    · by_cases ht : GAMESERVER_MAX_WAIT_SECONDS < env.now - r
      · simp [cleanup_draining_record, hphase, hvm, hvmne, hnode, hcnt, hr, ht]
      · simp [cleanup_draining_record, hphase, hvm, hvmne, hnode, hcnt, hr, ht]
  · intro env store h
    match store with
    | none => exact absurd h (by simp [cleanup_draining_record])
    | some st =>
      simp only [cleanup_draining_record] at h
      by_cases hphase : st.phase = some "Draining"
      case neg => simp [hphase] at h
      case pos =>
        rcases hvm : st.gcpVmName with _ | vm
        · simp [hphase, hvm] at h
        · refine ⟨st, vm, rfl, hvm, ?_⟩
          by_cases hvne : vm = ""
          · simp [hphase, hvm, hvne] at h
          · by_cases hnode : env.gcpNodeExists = false
            · by_cases hie : env.instanceExists = true <;>
                simp [hphase, hvm, hvne, hnode, hie] at h
            · by_cases hcnt : count_gameserver_pods_on_node env.gsQuery vm = 0
              · exact hcnt
              · exfalso
                rcases hr : st.recoveryDetectedAt with _ | r
                · simp [hphase, hvm, hvne, hnode, hcnt, hr] at h
                · by_cases ht : GAMESERVER_MAX_WAIT_SECONDS < env.now - r
                  · simp [hphase, hvm, hvne, hnode, hcnt, hr, ht] at h
                  · simp [hphase, hvm, hvne, hnode, hcnt, hr, ht] at h

/-- Witness for claim C9 at concrete inputs: an allocated GameServer is
counted, the sentinel fires on an API error, the sweep holds still on
the error, and a node deletion exhibits a zero count. -/
theorem count_gameservers_exact_and_sentinel_witness :
    count_gameserver_pods_on_node
      (.ok [{ nodeName := some "vm-1", state := some "Allocated" },
            { nodeName := some "vm-1", state := some "Ready" },
            { nodeName := some "other", state := some "Allocated" }]) "vm-1" =
      (([{ nodeName := some "vm-1", state := some "Allocated" },
         { nodeName := some "vm-1", state := some "Ready" },
         { nodeName := some "other", state := some "Allocated" }] :
         List GameServer).filter fun gs =>
          decide (gs.nodeName = some "vm-1") && decide (gs.state = some "Allocated")).length ∧
    count_gameserver_pods_on_node (.error ()) "vm-1" = 999 ∧
    (cleanup_draining_record
      { gcpNodeExists := true, instanceExists := true,
        gsQuery := .error (), now := 0 }
      (some { phase := some "Draining", gcpVmName := some "vm-1",
              recoveryDetectedAt := some 0 })).deletedNode = false ∧
    (cleanup_draining_record
      { gcpNodeExists := true, instanceExists := true,
        gsQuery := .error (), now := 0 }
      (some { phase := some "Draining", gcpVmName := some "vm-1",
              recoveryDetectedAt := some 0 })).store =
      some { phase := some "Draining", gcpVmName := some "vm-1",
             recoveryDetectedAt := some 0 } ∧
    (∃ st vm,
      (some { phase := some "Draining", gcpVmName := some "vm-1",
              recoveryDetectedAt := some 0 } : Option NFStatus) = some st ∧
      st.gcpVmName = some vm ∧
      count_gameserver_pods_on_node (Except.ok ([] : List GameServer)) vm = 0) := by
  have h := count_gameservers_exact_and_sentinel
  refine ⟨h.1 _ "vm-1", h.2.1 "vm-1", ?_, ?_, ?_⟩
  · exact (h.2.2.1
      { gcpNodeExists := true, instanceExists := true,
        gsQuery := .error (), now := 0 }
      { phase := some "Draining", gcpVmName := some "vm-1", recoveryDetectedAt := some 0 }
      "vm-1" rfl rfl (by decide) rfl rfl).2.1
  · exact (h.2.2.1
      { gcpNodeExists := true, instanceExists := true,
        gsQuery := .error (), now := 0 }
      { phase := some "Draining", gcpVmName := some "vm-1", recoveryDetectedAt := some 0 }
      "vm-1" rfl rfl (by decide) rfl rfl).2.2.2
  · exact h.2.2.2
      { gcpNodeExists := true, instanceExists := true,
        gsQuery := .ok [], now := 0 }
      (some { phase := some "Draining", gcpVmName := some "vm-1",
              recoveryDetectedAt := some 0 }) rfl

/-! ## Per-operation store facts -/

theorem recoveryAssigned_ne {st st' : NFStatus} (h : recoveryAssigned st st') :
    st'.recoveryDetectedAt ≠ st.recoveryDetectedAt := by
  rintro he
  obtain ⟨v, hv1, hv2⟩ := h
  rw [he] at hv1
  exact hv2 hv1

theorem cleanup_store_preserves (env : DrainEnv) (st : NFStatus) :
    ∀ st', (cleanup_draining_record env (some st)).store = some st' →
      st'.vmCreationAttempts = st.vmCreationAttempts ∧
      st'.recoveryDetectedAt = st.recoveryDetectedAt := by
  intro st' h
  simp only [cleanup_draining_record] at h
  repeat' split at h
  all_goals exact
    ⟨congrArg (·.vmCreationAttempts) (Option.some.inj h).symm,
     congrArg (·.recoveryDetectedAt) (Option.some.inj h).symm⟩

theorem join_store_preserves (joined labelOk : Bool) (st : NFStatus) :
    ∀ st', (wait_for_node_join_handler joined labelOk (some st)).store = some st' →
      st'.vmCreationAttempts = st.vmCreationAttempts ∧
      st'.recoveryDetectedAt = st.recoveryDetectedAt := by
  intro st' h
  cases joined <;> cases labelOk <;>
    simp only [wait_for_node_join_handler, setConditionStore, updateStatusStore] at h <;>
    exact ⟨congrArg (·.vmCreationAttempts) (Option.some.inj h).symm,
      congrArg (·.recoveryDetectedAt) (Option.some.inj h).symm⟩

theorem on_node_event_ready_cases (now : Nat) (st : NFStatus) :
    on_node_event_ready now (some st) = some st ∨
    (on_node_event_ready now (some st) = some (setCondition (updateStatus st
        { phase := some "Recovering", recoveryDetectedAt := some now })
        "OnPremRecovered" "True" none none) ∧
      st.phase ≠ some "Recovering" ∧ st.phase ≠ some "Draining" ∧
      st.phase ≠ some "Completed") := by
  simp only [on_node_event_ready]
  by_cases hg : st.phase ≠ some "Recovering" ∧ st.phase ≠ some "Draining" ∧
      st.phase ≠ some "Completed"
  · right
    rw [if_pos hg]
    exact ⟨rfl, hg.1, hg.2.1, hg.2.2⟩
  · left
    rw [if_neg hg]

theorem active_phase_cases (isReady : Option Bool) (taintOk : Bool) (now : Nat)
    (st : NFStatus) :
    (applyCrdOp (.activePhase isReady taintOk now) (some st) = some st ∧
      isReady ≠ some true) ∨
    (applyCrdOp (.activePhase isReady taintOk now) (some st) =
      some (setCondition (updateStatus st
        { phase := some "Recovering", recoveryDetectedAt := some now })
        "OnPremRecovered" "True" none none) ∧
      isReady = some true) := by
  by_cases hr : isReady = some true
  · right
    refine ⟨?_, hr⟩
    simp [applyCrdOp, handle_active_phase, hr, setConditionStore, updateStatusStore]
  · left
    refine ⟨?_, hr⟩
    simp [applyCrdOp, handle_active_phase, hr, kubernetesClientMethods]

theorem reconstruct_cases (isReady : Option Bool) (now : Nat) (st : NFStatus) :
    reconstruct_existing_record isReady now st =
      .error (.attributeError "apply_out_of_service_taint") ∨
    reconstruct_existing_record isReady now st = .ok (some st) ∨
    (reconstruct_existing_record isReady now st = .ok (some (setCondition (updateStatus st
        { phase := some "Recovering", recoveryDetectedAt := some now })
        "OnPremRecovered" "True" none none)) ∧
      isReady = some true ∧ st.phase ≠ some "Recovering" ∧ st.phase ≠ some "Draining" ∧
      st.phase ≠ some "Completed") := by
  unfold reconstruct_existing_record
  by_cases h1 : st.phase = some "Completed"
  · right; left
    rw [if_pos h1]
  · rw [if_neg h1]
    by_cases h2 : isReady ≠ some true ∧ st.phase = some "Active" ∧ needsTaint st = true
    · left
      rw [if_pos h2]
    · rw [if_neg h2]
      by_cases h3 : isReady = some true ∧ st.phase ≠ some "Recovering" ∧
          st.phase ≠ some "Draining" ∧ st.phase ≠ some "Completed"
      · right; right
        rw [if_pos h3]
        exact ⟨rfl, h3.1, h3.2.1, h3.2.2.1, h3.2.2.2⟩
      · right; left
        rw [if_neg h3]

theorem create_failover_vm_cap (env : CfvEnv) (st : NFStatus)
    (hMax : MAX_VM_CREATION_ATTEMPTS ≤ st.vmCreationAttempts) :
    create_failover_vm env (some st) =
      { caught := [], createCalled := false,
        store := some (updateStatus st { lastError := some "Max attempts (3) reached" }) } := by
  conv_lhs => rw [create_failover_vm]
  rw [dif_pos hMax]

theorem create_failover_vm_store_fields (env : CfvEnv) (st : NFStatus) :
    ∀ st', (create_failover_vm env (some st)).store = some st' →
      (st.vmCreationAttempts ≤ MAX_VM_CREATION_ATTEMPTS →
        st'.vmCreationAttempts ≤ MAX_VM_CREATION_ATTEMPTS) ∧
      st'.recoveryDetectedAt = st.recoveryDetectedAt := by
  intro st' h
  by_cases hMax : MAX_VM_CREATION_ATTEMPTS ≤ st.vmCreationAttempts
  · rw [create_failover_vm_cap env st hMax] at h
    have he := (Option.some.inj h).symm
    constructor
    · intro hle
      rw [he]
      exact hle
    · rw [he]
      rfl
  · obtain ⟨stF, hrw, hp1, _, _, hp4, _⟩ :=
      create_failover_vm_loop (MAX_VM_CREATION_ATTEMPTS - st.vmCreationAttempts) env st
        (le_refl _) (by omega)
    rw [hrw] at h
    have he := (Option.some.inj h).symm
    rw [he]
    exact ⟨fun _ => by rw [hp1], hp4⟩

theorem create_failover_vm_none (env : CfvEnv) :
    create_failover_vm env none = { caught := [], createCalled := false, store := none } := by
  conv_lhs => rw [create_failover_vm]

/-! ## Claim C5: the attempts cap -/

/-- Claim C5: every modelled operation of the CRD path preserves
`vmCreationAttempts ≤ MAX_VM_CREATION_ATTEMPTS` (records are created
with 0 attempts), and when `create_failover_vm` reads a counter at or
above the cap it writes only `lastError` and returns — no increment, no
phase change, no caught retry, and no `create_instance` call. -/
theorem vm_creation_attempts_bounded :
    (∀ (op : CrdOp) (st st' : NFStatus),
      applyCrdOp op (some st) = some st' →
      st.vmCreationAttempts ≤ MAX_VM_CREATION_ATTEMPTS →
      st'.vmCreationAttempts ≤ MAX_VM_CREATION_ATTEMPTS) ∧
    (∀ (op : CrdOp) (st' : NFStatus), applyCrdOp op none = some st' →
      st'.vmCreationAttempts ≤ MAX_VM_CREATION_ATTEMPTS) ∧
    (∀ (env : CfvEnv) (st : NFStatus),
      MAX_VM_CREATION_ATTEMPTS ≤ st.vmCreationAttempts →
      create_failover_vm env (some st) =
        { caught := [], createCalled := false,
          store := some (updateStatus st { lastError := some "Max attempts (3) reached" }) } ∧
      (updateStatus st { lastError := some "Max attempts (3) reached" }).vmCreationAttempts =
        st.vmCreationAttempts ∧
      (updateStatus st { lastError := some "Max attempts (3) reached" }).phase = st.phase ∧
      (updateStatus st { lastError := some "Max attempts (3) reached" }).gcpVmName =
        st.gcpVmName ∧
      (updateStatus st { lastError := some "Max attempts (3) reached" }).lastError =
        some "Max attempts (3) reached") := by
  refine ⟨?_, ?_, ?_⟩
  · intro op st st' h hle
    cases op with
    | nodeEventNotReady now =>
      simp only [applyCrdOp, on_node_event_unready] at h
      by_cases hph : st.phase = some "Completed"
      · rw [if_pos hph] at h
        rw [← Option.some.inj h]
        exact Nat.zero_le _
      · rw [if_neg hph] at h
        rw [← Option.some.inj h]
        exact hle
    | nodeEventReady now =>
      simp only [applyCrdOp] at h
      rcases on_node_event_ready_cases now st with hc | ⟨hc, -⟩ <;> rw [hc] at h <;>
        rw [← Option.some.inj h]
      · exact hle
      · exact hle
    | createVm env =>
      exact ((create_failover_vm_store_fields env st st' h).1) hle
    | nodeJoin joined labelOk =>
      rw [(join_store_preserves joined labelOk st st' h).1]
      exact hle
    | activePhase isReady taintOk now =>
      rcases active_phase_cases isReady taintOk now st with ⟨hc, -⟩ | ⟨hc, -⟩ <;>
        rw [hc] at h <;> rw [← Option.some.inj h]
      · exact hle
      · exact hle
    | recoveringPhase =>
      rw [← Option.some.inj (show (some st : Option NFStatus) = some st' from h)]
      exact hle
    | drainSweep env =>
      rw [(cleanup_store_preserves env st st' h).1]
      exact hle
    | startupReconcile isReady now =>
      simp only [applyCrdOp] at h
      rcases reconstruct_cases isReady now st with hc | hc | ⟨hc, -⟩ <;> rw [hc] at h <;>
        rw [← Option.some.inj h]
      · exact hle
      · exact hle
      · exact hle
  · intro op st' h
    cases op with
    | nodeEventNotReady now =>
      simp only [applyCrdOp, on_node_event_unready] at h
      rw [← Option.some.inj h]
      exact Nat.zero_le _
    | nodeEventReady now => simp [applyCrdOp, on_node_event_ready] at h
    | createVm env =>
      simp only [applyCrdOp] at h
      rw [create_failover_vm_none] at h
      exact absurd h (by simp)
    | nodeJoin joined labelOk =>
      cases joined <;> cases labelOk <;>
        simp [applyCrdOp, wait_for_node_join_handler, setConditionStore,
          updateStatusStore] at h
    | activePhase isReady taintOk now =>
      by_cases hr : isReady = some true <;>
        simp [applyCrdOp, handle_active_phase, hr, kubernetesClientMethods,
          setConditionStore, updateStatusStore] at h
    | recoveringPhase =>
      simp [applyCrdOp, handle_recovering_phase, kubernetesClientMethods] at h
    | drainSweep env => simp [applyCrdOp, cleanup_draining_record] at h
    | startupReconcile isReady now => simp [applyCrdOp] at h
  · intro env st hMax
    exact ⟨create_failover_vm_cap env st hMax, rfl, rfl, rfl, rfl⟩

/-- Witness for claim C5: a preserved bound on a concrete step, and the
cap behaviour on a record that already reached three attempts. -/
theorem vm_creation_attempts_bounded_witness :
    (crdCreate 0).vmCreationAttempts ≤ MAX_VM_CREATION_ATTEMPTS ∧
    create_failover_vm
      { nodeName := "worker-01", instances := [], timestamp := 0, tokenOk := true,
        caHashOk := true, apiServerSet := true, createOk := true }
      (some { phase := some "Creating", vmCreationAttempts := 3 }) =
      { caught := [], createCalled := false,
        store := some (updateStatus { phase := some "Creating", vmCreationAttempts := 3 }
          { lastError := some "Max attempts (3) reached" }) } ∧
    (updateStatus { phase := some "Creating", vmCreationAttempts := 3 }
      { lastError := some "Max attempts (3) reached" }).vmCreationAttempts = 3 ∧
    (updateStatus { phase := some "Creating", vmCreationAttempts := 3 }
      { lastError := some "Max attempts (3) reached" }).phase = some "Creating" := by
  have h2 := vm_creation_attempts_bounded.2.2
    { nodeName := "worker-01", instances := [], timestamp := 0, tokenOk := true,
      caHashOk := true, apiServerSet := true, createOk := true }
    { phase := some "Creating", vmCreationAttempts := 3 } (by decide)
  have h1 := vm_creation_attempts_bounded.1 (.nodeEventNotReady 0) (crdCreate 0)
    (crdCreate 0) (by rfl) (by decide)
  exact ⟨h1, h2.1, h2.2.1, h2.2.2.1⟩

/-! ## Claim C3: where `recoveryDetectedAt` gets assigned -/

/-- Claim C3, counterexample: a ready-node event on a record still in
phase Pending assigns `recoveryDetectedAt` (and moves the record to
Recovering), so the field is not assigned only on Active-to-Recovering
transitions. -/
theorem recovery_assigned_from_pending :
    (crdCreate 0).phase = some "Pending" ∧
    (crdCreate 0).recoveryDetectedAt = none ∧
    (on_node_event_ready 5 (some (crdCreate 0))).map (·.recoveryDetectedAt) =
      some (some 5) ∧
    (on_node_event_ready 5 (some (crdCreate 0))).map (·.phase) =
      some (some "Recovering") :=
  ⟨rfl, rfl, rfl, rfl⟩

/-- Claim C3, amended: `recoveryDetectedAt` is assigned only by
operations that set the phase to Recovering in the same status update;
the ready-node event and the startup reconstruction do so from any phase
outside {Recovering, Draining, Completed} — including Pending and
Creating — and the Active-phase handler does so when it observes the
node ready; freshly created records carry no `recoveryDetectedAt`. -/
theorem recovery_assigned_only_with_recovering :
    (∀ (op : CrdOp) (st st' : NFStatus),
      applyCrdOp op (some st) = some st' → recoveryAssigned st st' →
      st'.phase = some "Recovering") ∧
    (∀ (now : Nat) (st st' : NFStatus),
      applyCrdOp (.nodeEventReady now) (some st) = some st' → recoveryAssigned st st' →
      st.phase ≠ some "Recovering" ∧ st.phase ≠ some "Draining" ∧
        st.phase ≠ some "Completed") ∧
    (∀ (isReady : Option Bool) (now : Nat) (st st' : NFStatus),
      applyCrdOp (.startupReconcile isReady now) (some st) = some st' →
      recoveryAssigned st st' →
      (st.phase ≠ some "Recovering" ∧ st.phase ≠ some "Draining" ∧
        st.phase ≠ some "Completed") ∧ isReady = some true) ∧
    (∀ (isReady : Option Bool) (taintOk : Bool) (now : Nat) (st st' : NFStatus),
      applyCrdOp (.activePhase isReady taintOk now) (some st) = some st' →
      recoveryAssigned st st' → isReady = some true) ∧
    (∀ (op : CrdOp) (st' : NFStatus), applyCrdOp op none = some st' →
      st'.recoveryDetectedAt = none) := by
  refine ⟨?_, ?_, ?_, ?_, ?_⟩
  · intro op st st' h hass
    cases op with
    | nodeEventNotReady now =>
      simp only [applyCrdOp, on_node_event_unready] at h
      by_cases hph : st.phase = some "Completed"
      · rw [if_pos hph] at h
        obtain ⟨v, hv1, -⟩ := hass
        rw [← Option.some.inj h] at hv1
        exact absurd hv1 (by simp [crdCreate])
      · rw [if_neg hph] at h
        rw [← Option.some.inj h] at hass
        exact absurd rfl (recoveryAssigned_ne hass)
    | nodeEventReady now =>
      simp only [applyCrdOp] at h
      rcases on_node_event_ready_cases now st with hc | ⟨hc, -⟩ <;> rw [hc] at h
      · rw [← Option.some.inj h] at hass
        exact absurd rfl (recoveryAssigned_ne hass)
      · rw [← Option.some.inj h]
        rfl
    | createVm env =>
      exact absurd (create_failover_vm_store_fields env st st' h).2
        (recoveryAssigned_ne hass)
    | nodeJoin joined labelOk =>
      exact absurd (join_store_preserves joined labelOk st st' h).2
        (recoveryAssigned_ne hass)
    | activePhase isReady taintOk now =>
      rcases active_phase_cases isReady taintOk now st with ⟨hc, -⟩ | ⟨hc, -⟩ <;>
        rw [hc] at h
      · rw [← Option.some.inj h] at hass
        exact absurd rfl (recoveryAssigned_ne hass)
      · rw [← Option.some.inj h]
        rfl
    | recoveringPhase =>
      rw [← Option.some.inj (show (some st : Option NFStatus) = some st' from h)] at hass
      exact absurd rfl (recoveryAssigned_ne hass)
    | drainSweep env =>
      exact absurd (cleanup_store_preserves env st st' h).2 (recoveryAssigned_ne hass)
    | startupReconcile isReady now =>
      simp only [applyCrdOp] at h
      rcases reconstruct_cases isReady now st with hc | hc | ⟨hc, -⟩ <;> rw [hc] at h
      · rw [← Option.some.inj h] at hass
        exact absurd rfl (recoveryAssigned_ne hass)
      · rw [← Option.some.inj h] at hass
        exact absurd rfl (recoveryAssigned_ne hass)
      · rw [← Option.some.inj h]
        rfl
  · intro now st st' h hass
    simp only [applyCrdOp] at h
    rcases on_node_event_ready_cases now st with hc | ⟨hc, h1, h2, h3⟩ <;> rw [hc] at h
    · rw [← Option.some.inj h] at hass
      exact absurd rfl (recoveryAssigned_ne hass)
    · exact ⟨h1, h2, h3⟩
  · intro isReady now st st' h hass
    simp only [applyCrdOp] at h
    rcases reconstruct_cases isReady now st with hc | hc | ⟨hc, h1, h2, h3, h4⟩ <;>
      rw [hc] at h
    · rw [← Option.some.inj h] at hass
      exact absurd rfl (recoveryAssigned_ne hass)
    · rw [← Option.some.inj h] at hass
      exact absurd rfl (recoveryAssigned_ne hass)
    · exact ⟨⟨h2, h3, h4⟩, h1⟩
  · intro isReady taintOk now st st' h hass
    rcases active_phase_cases isReady taintOk now st with ⟨hc, -⟩ | ⟨-, hr⟩
    · rw [hc] at h
      rw [← Option.some.inj h] at hass
      exact absurd rfl (recoveryAssigned_ne hass)
    · exact hr
  · intro op st' h
    cases op with
    | nodeEventNotReady now =>
      simp only [applyCrdOp, on_node_event_unready] at h
      rw [← Option.some.inj h]
      rfl
    | nodeEventReady now => simp [applyCrdOp, on_node_event_ready] at h
    | createVm env =>
      simp only [applyCrdOp] at h
      rw [create_failover_vm_none] at h
      exact absurd h (by simp)
    | nodeJoin joined labelOk =>
      cases joined <;> cases labelOk <;>
        simp [applyCrdOp, wait_for_node_join_handler, setConditionStore,
          updateStatusStore] at h
    | activePhase isReady taintOk now =>
      by_cases hr : isReady = some true <;>
        simp [applyCrdOp, handle_active_phase, hr, kubernetesClientMethods,
          setConditionStore, updateStatusStore] at h
    | recoveringPhase =>
      simp [applyCrdOp, handle_recovering_phase, kubernetesClientMethods] at h
    | drainSweep env => simp [applyCrdOp, cleanup_draining_record] at h
    | startupReconcile isReady now => simp [applyCrdOp] at h

/-- Witness for the amended claim C3: the ready-node event on a Pending
record assigns the field while moving the record to Recovering. -/
theorem recovery_assigned_only_with_recovering_witness :
    (setCondition (updateStatus (crdCreate 0)
      { phase := some "Recovering", recoveryDetectedAt := some 5 })
      "OnPremRecovered" "True" none none).phase = some "Recovering" ∧
    (crdCreate 0).phase ≠ some "Recovering" :=
  ⟨recovery_assigned_only_with_recovering.1 (.nodeEventReady 5) (crdCreate 0) _ rfl
    ⟨5, rfl, by decide⟩, by decide⟩

end NodeOp
